import Mathlib

/-!
# Verification of the ItemTracker Pipeline Orchestration Core

A shallow embedding of the core data model and operations of the ItemTracker
repository (packages/monolith): the pipeline state machine
(`galleries/pipeline_states.rs`), the typed State Tracker message wrapper
(`messages/mod.rs`), and the scraper scheduler message loop
(`modules/scraper_scheduler/mod.rs`).  Components whose source is not in the
excerpt (the State Tracker actor itself, the message bus internals, the
scheduler handler) are modelled from the specification and marked as such.
-/

namespace ItemTracker

/-- Opaque unique identifier for a gallery (domain type `GalleryId`). -/
abbrev GalleryId := String

/-- Enumerated marketplace identifier (domain type `Marketplace`), kept opaque. -/
abbrev Marketplace := String

/-- Absolute timestamp (domain type `UnixUtcDateTime`). -/
abbrev UnixUtcDateTime := Int

/-- Cron expression validated before entering the core (domain type `ValidCronString`). -/
abbrev ValidCronString := String

/-- Opaque item identifier (domain type `ItemId`). -/
abbrev ItemId := String

/-- Opaque search-criteria blob (`GallerySearchCriteria`), threaded through unchanged. -/
abbrev GallerySearchCriteria := String

/-- Opaque evaluation-criteria blob (`EvaluationCriteria`), threaded through unchanged. -/
abbrev EvaluationCriteria := String

/-- Opaque scraped item data (`MarketplaceItemData`). -/
abbrev MarketplaceItemData := String

/-- Opaque analyzed item data (`MarketplaceAnalyzedItems`). -/
abbrev MarketplaceAnalyzedItems := String

/-- Opaque embedded and analyzed item data (`MarketplaceEmbeddedAndAnalyzedItems`). -/
abbrev MarketplaceEmbeddedAndAnalyzedItems := String

/-- Embedding of `std::collections::HashMap`, as an association list (the code only
stores, moves and copies these maps; it never relies on hashing). -/
abbrev HMap (k v : Type) := List (k × v)

/-- Embedding of `GallerySchedulerState` (pipeline_states.rs): state of a gallery in the scheduler. -/
structure GallerySchedulerState where
  gallery_id : GalleryId
  scraping_periodicity : ValidCronString
  search_criteria : GallerySearchCriteria
  marketplace_previous_scraped_datetimes : HMap Marketplace UnixUtcDateTime
  evaluation_criteria : EvaluationCriteria
deriving DecidableEq

/-- Embedding of `GallerySearchScrapingState` (pipeline_states.rs): initial state of a scraping job. -/
structure GallerySearchScrapingState where
  gallery_id : GalleryId
  search_criteria : GallerySearchCriteria
  marketplace_previous_scraped_datetimes : HMap Marketplace UnixUtcDateTime
  evaluation_criteria : EvaluationCriteria
deriving DecidableEq

/-- Embedding of `GalleryItemScrapingState` (pipeline_states.rs): state after search-scraping. -/
structure GalleryItemScrapingState where
  gallery_id : GalleryId
  item_ids : HMap Marketplace (List ItemId)
  marketplace_updated_datetimes : HMap Marketplace UnixUtcDateTime
  failed_marketplace_reasons : HMap Marketplace String
  evaluation_criteria : EvaluationCriteria
deriving DecidableEq

/-- Embedding of `GalleryItemAnalysisState` (pipeline_states.rs): state after items are scraped. -/
structure GalleryItemAnalysisState where
  gallery_id : GalleryId
  items : HMap Marketplace (List MarketplaceItemData)
  marketplace_updated_datetimes : HMap Marketplace UnixUtcDateTime
  failed_marketplace_reasons : HMap Marketplace String
  evaluation_criteria : EvaluationCriteria
deriving DecidableEq

/-- Embedding of `GalleryItemEmbedderState` (pipeline_states.rs): state after items are embedded.
Note: this struct has no `evaluation_criteria` field in the source. -/
structure GalleryItemEmbedderState where
  gallery_id : GalleryId
  items : HMap Marketplace MarketplaceAnalyzedItems
  marketplace_updated_datetimes : HMap Marketplace UnixUtcDateTime
  failed_marketplace_reasons : HMap Marketplace String
deriving DecidableEq

/-- Embedding of `GalleryFinalState` (pipeline_states.rs): state after items are classified. -/
structure GalleryFinalState where
  gallery_id : GalleryId
  items : HMap Marketplace MarketplaceEmbeddedAndAnalyzedItems
  marketplace_updated_datetimes : HMap Marketplace UnixUtcDateTime
  failed_marketplace_reasons : HMap Marketplace String
deriving DecidableEq

/-- Embedding of `GalleryPipelineStates` (pipeline_states.rs): the possible states of a gallery
in the scraping pipeline, one variant per stage. -/
inductive GalleryPipelineStates where
  | Initialization (s : GallerySchedulerState)
  | SearchScraping (s : GallerySearchScrapingState)
  | ItemScraping (s : GalleryItemScrapingState)
  | ItemAnalysis (s : GalleryItemAnalysisState)
  | ItemEmbedding (s : GalleryItemEmbedderState)
  | Final (s : GalleryFinalState)
deriving DecidableEq

/-- Embedding of `GalleryPipelineStateTypes` (pipeline_states.rs): the stateless enum of the
possible states in the pipeline. -/
inductive GalleryPipelineStateTypes where
  | Initialization
  | SearchScraping
  | ItemScraping
  | ItemAnalysis
  | ItemEmbedding
  | Final
deriving DecidableEq

/-- Embedding of `GalleryPipelineStates::matches` (pipeline_states.rs): returns if the state
type matches the state (embedding of the Rust `matches!` over the listed pairs). -/
def GalleryPipelineStates.matches (self : GalleryPipelineStates)
    (state_type : GalleryPipelineStateTypes) : Bool :=
  match self, state_type with
  | .Initialization _, .Initialization => true
  | .SearchScraping _, .SearchScraping => true
  | .ItemScraping _, .ItemScraping => true
  | .ItemAnalysis _, .ItemAnalysis => true
  | .ItemEmbedding _, .ItemEmbedding => true
  | .Final _, .Final => true
  | _, _ => false

/-- Embedding of `GalleryPipelineStates::state_type` (pipeline_states.rs): the state's state type. -/
def GalleryPipelineStates.state_type (self : GalleryPipelineStates) :
    GalleryPipelineStateTypes :=
  match self with
  | .Initialization _ => .Initialization
  | .SearchScraping _ => .SearchScraping
  | .ItemScraping _ => .ItemScraping
  | .ItemAnalysis _ => .ItemAnalysis
  | .ItemEmbedding _ => .ItemEmbedding
  | .Final _ => .Final

/-- Embedding of `GalleryPipelineStateTypes::matches` (pipeline_states.rs): delegates to
`GalleryPipelineStates::matches`. -/
def GalleryPipelineStateTypes.matches (self : GalleryPipelineStateTypes)
    (state : GalleryPipelineStates) : Bool :=
  state.matches self

/-- Embedding of `GallerySchedulerState::to_next_stage` (pipeline_states.rs): maps the
scheduler-stage state to the search-scraping-stage state. -/
def GallerySchedulerState.to_next_stage (self : GallerySchedulerState) :
    GallerySearchScrapingState :=
  { gallery_id := self.gallery_id
    search_criteria := self.search_criteria
    marketplace_previous_scraped_datetimes := self.marketplace_previous_scraped_datetimes
    evaluation_criteria := self.evaluation_criteria }

/-- Embedding of `GalleryItemScrapingState::to_next_stage` (pipeline_states.rs): maps the
item-scraping-stage state, given the scraped items, to the item-analysis-stage state. -/
def GalleryItemScrapingState.to_next_stage (self : GalleryItemScrapingState)
    (items : HMap Marketplace (List MarketplaceItemData)) : GalleryItemAnalysisState :=
  { gallery_id := self.gallery_id
    items := items
    marketplace_updated_datetimes := self.marketplace_updated_datetimes
    failed_marketplace_reasons := self.failed_marketplace_reasons
    evaluation_criteria := self.evaluation_criteria }

/-- Embedding of `GalleryItemAnalysisState::to_next_stage` (pipeline_states.rs): maps the
item-analysis-stage state, given the analyzed items, to the item-embedder-stage state. -/
def GalleryItemAnalysisState.to_next_stage (self : GalleryItemAnalysisState)
    (items : HMap Marketplace MarketplaceAnalyzedItems) : GalleryItemEmbedderState :=
  { gallery_id := self.gallery_id
    items := items
    marketplace_updated_datetimes := self.marketplace_updated_datetimes
    failed_marketplace_reasons := self.failed_marketplace_reasons }

/-- Projection: the `failed_marketplace_reasons` field of a stage payload, when the
variant's struct has one (read off directly from the struct definitions). -/
def failedMarketplaceReasons? (s : GalleryPipelineStates) :
    Option (HMap Marketplace String) :=
  match s with
  | .Initialization _ => none
  | .SearchScraping _ => none
  | .ItemScraping st => some st.failed_marketplace_reasons
  | .ItemAnalysis st => some st.failed_marketplace_reasons
  | .ItemEmbedding st => some st.failed_marketplace_reasons
  | .Final st => some st.failed_marketplace_reasons

/-- Projection: the `marketplace_updated_datetimes` field of a stage payload, when the
variant's struct has one. -/
def marketplaceUpdatedDatetimes? (s : GalleryPipelineStates) :
    Option (HMap Marketplace UnixUtcDateTime) :=
  match s with
  | .Initialization _ => none
  | .SearchScraping _ => none
  | .ItemScraping st => some st.marketplace_updated_datetimes
  | .ItemAnalysis st => some st.marketplace_updated_datetimes
  | .ItemEmbedding st => some st.marketplace_updated_datetimes
  | .Final st => some st.marketplace_updated_datetimes

/-- Projection: the `marketplace_previous_scraped_datetimes` field of a stage payload,
when the variant's struct has one. -/
def marketplacePreviousScrapedDatetimes? (s : GalleryPipelineStates) :
    Option (HMap Marketplace UnixUtcDateTime) :=
  match s with
  | .Initialization st => some st.marketplace_previous_scraped_datetimes
  | .SearchScraping st => some st.marketplace_previous_scraped_datetimes
  | .ItemScraping _ => none
  | .ItemAnalysis _ => none
  | .ItemEmbedding _ => none
  | .Final _ => none

/-- Projection: the `evaluation_criteria` field of a stage payload, when the variant's
struct has one. -/
def evaluationCriteria? (s : GalleryPipelineStates) : Option EvaluationCriteria :=
  match s with
  | .Initialization st => some st.evaluation_criteria
  | .SearchScraping st => some st.evaluation_criteria
  | .ItemScraping st => some st.evaluation_criteria
  | .ItemAnalysis st => some st.evaluation_criteria
  | .ItemEmbedding _ => none
  | .Final _ => none

/-- Projection: the `scraping_periodicity` (cron) field of a stage payload, when the
variant's struct has one. -/
def scrapingPeriodicity? (s : GalleryPipelineStates) : Option ValidCronString :=
  match s with
  | .Initialization st => some st.scraping_periodicity
  | .SearchScraping _ => none
  | .ItemScraping _ => none
  | .ItemAnalysis _ => none
  | .ItemEmbedding _ => none
  | .Final _ => none

/-- Position of a stage tag in the pipeline's linear order
Initialization, SearchScraping, ItemScraping, ItemAnalysis, ItemEmbedding, Final. -/
def stageIndex (t : GalleryPipelineStateTypes) : Nat :=
  match t with
  | .Initialization => 0
  | .SearchScraping => 1
  | .ItemScraping => 2
  | .ItemAnalysis => 3
  | .ItemEmbedding => 4
  | .Final => 5

/-- Modelled from the spec: on a cron fire for a gallery with Initialization data
`sched`, the Scheduler transforms the payload into the SearchScraping-stage payload
and dispatches it (spec 4.4 and invariant 4: after Final, the next cron fire returns
the gallery to SearchScraping).  The scheduler handler source is not in the excerpt. -/
def cron_fire (sched : GallerySchedulerState) : GalleryPipelineStates :=
  .SearchScraping sched.to_next_stage

/-- Modelled from the spec: a registry slot is `Present(stage payload)` or `Taken`
(spec section 3, Registry slot).  The State Tracker actor source is not in the excerpt. -/
inductive GallerySlot where
  | Present (s : GalleryPipelineStates)
  | Taken
deriving DecidableEq

/-- Modelled from the spec: the State Tracker's GalleryId-to-slot map, as an
association list; absence of a key means the gallery does not exist. -/
abbrev Registry := List (GalleryId × GallerySlot)

/-- Lookup of the slot of a gallery id in the registry. -/
def Registry.get? : Registry → GalleryId → Option GallerySlot
  | [], _ => none
  | (k, v) :: rest, g => if k == g then some v else Registry.get? rest g

/-- Overwrite (or insert) the slot of a gallery id in the registry. -/
def Registry.set : Registry → GalleryId → GallerySlot → Registry
  | [], g, slot => [(g, slot)]
  | (k, v) :: rest, g, slot =>
    if k == g then (g, slot) :: rest else (k, v) :: Registry.set rest g slot

/-- Delete the slot of a gallery id from the registry. -/
def Registry.erase (r : Registry) (g : GalleryId) : Registry :=
  r.filter (fun p => !(p.1 == g))

/-- Embedding of `StateTrackerError` (messages/message_types, declared in the source
and enumerated in spec section 7). -/
inductive StateTrackerError where
  | GalleryAlreadyExists
  | GalleryNotFound
  | GalleryStateTaken
  | StateMismatch
  | GalleryStateNotTaken
deriving DecidableEq

namespace StateTracker

/-- Modelled from the spec: `AddGallery(id, initial_state)` fails with
`GalleryAlreadyExists` if a slot (Present or Taken) already exists; else inserts
`Present(initial_state)` (spec 4.3).  The State Tracker actor source is not in the excerpt. -/
def add_gallery (r : Registry) (g : GalleryId) (initial_state : GalleryPipelineStates) :
    Except StateTrackerError Registry :=
  match r.get? g with
  | some _ => .error .GalleryAlreadyExists
  | none => .ok (r.set g (.Present initial_state))

/-- Modelled from the spec: `CheckGalleryDoesntExist(id)` fails with
`GalleryAlreadyExists` if any slot exists; else succeeds with no mutation (spec 4.3). -/
def check_gallery_doesnt_exist (r : Registry) (g : GalleryId) :
    Except StateTrackerError Unit :=
  match r.get? g with
  | some _ => .error .GalleryAlreadyExists
  | none => .ok ()

/-- Modelled from the spec: `CheckGalleryState(id, expected_tag)` fails with
`GalleryNotFound` if absent, `GalleryStateTaken` if leased, `StateMismatch` if
Present but the tag differs; else succeeds with no mutation (spec 4.3). -/
def check_gallery_state (r : Registry) (g : GalleryId)
    (expected_tag : GalleryPipelineStateTypes) : Except StateTrackerError Unit :=
  match r.get? g with
  | none => .error .GalleryNotFound
  | some .Taken => .error .GalleryStateTaken
  | some (.Present s) => if s.matches expected_tag then .ok () else .error .StateMismatch

/-- Modelled from the spec: `TakeGalleryState(id, expected_tag)` has the same failure
set as Check; on success it atomically replaces the slot with `Taken` and returns the
previous payload (spec 4.3). -/
def take_gallery_state (r : Registry) (g : GalleryId)
    (expected_tag : GalleryPipelineStateTypes) :
    Except StateTrackerError (GalleryPipelineStates × Registry) :=
  match r.get? g with
  | none => .error .GalleryNotFound
  | some .Taken => .error .GalleryStateTaken
  | some (.Present s) =>
    if s.matches expected_tag then .ok (s, r.set g .Taken)
    else .error .StateMismatch

/-- Modelled from the spec: `UpdateGalleryState(id, new_state)` fails with
`GalleryNotFound` if absent, `GalleryStateNotTaken` if the slot is currently Present;
on success replaces the slot with `Present(new_state)` (spec 4.3). -/
def update_gallery_state (r : Registry) (g : GalleryId)
    (new_state : GalleryPipelineStates) : Except StateTrackerError Registry :=
  match r.get? g with
  | none => .error .GalleryNotFound
  | some (.Present _) => .error .GalleryStateNotTaken
  | some .Taken => .ok (r.set g (.Present new_state))

/-- Modelled from the spec: `RemoveGallery(id)` fails with `GalleryNotFound` if absent;
else deletes the slot unconditionally, Present or Taken (spec 4.3). -/
def remove_gallery (r : Registry) (g : GalleryId) : Except StateTrackerError Registry :=
  match r.get? g with
  | none => .error .GalleryNotFound
  | some _ => .ok (r.erase g)

end StateTracker

/-- Modelled from the spec: transport-layer errors of the message bus (spec 4.1 and 7):
the receiving queue is gone at send time, or the reply channel's sender was dropped
without replying.  The message bus source (messages/message_buses) is not in the excerpt. -/
inductive MessageError where
  | SendError
  | ReceiveError
deriving DecidableEq

/-- Embedding of `StateTrackerMessage` (messages/message_types/state_tracker): one
variant per request kind, with the payloads the wrapper methods construct in
messages/mod.rs (the embedded one-shot reply channel is modelled separately). -/
inductive StateTrackerMessage where
  | AddGallery (payload : GalleryId × GalleryPipelineStates)
  | CheckGalleryDoesntExist (payload : GalleryId)
  | CheckGalleryState (payload : GalleryId × GalleryPipelineStateTypes)
  | TakeGalleryState (payload : GalleryId × GalleryPipelineStateTypes)
  | UpdateGalleryState (payload : GalleryId × GalleryPipelineStates)
  | RemoveGallery (payload : GalleryId)
deriving DecidableEq

/-- Modelled from the spec: `MessageSender::send` delivers the request to the
receiving task's inbound queue, failing with a transport error when the queue is gone
(spec 4.1).  `queue_alive` abstracts whether the receiver still exists. -/
def sendMessage (queue_alive : Bool) (_msg : StateTrackerMessage) :
    Except MessageError Unit :=
  if queue_alive then .ok () else .error .SendError

/-- Modelled from the spec: awaiting the one-shot reply channel; `none` models the
channel's sender dropped without replying, which resolves to a transport error
(the `receiver.await.map_err(Into::into)` lines of messages/mod.rs). -/
def awaitReply {α : Type} (reply : Option α) : Except MessageError α :=
  match reply with
  | some v => .ok v
  | none => .error .ReceiveError

namespace StateTrackerSender

/-- Embedding of `StateTrackerSender::add_gallery` (messages/mod.rs): constructs the
request, sends it, awaits the reply; the domain `Result` stays nested inside the
transport `Result`. -/
def add_gallery (queue_alive : Bool) (gallery_id : GalleryId)
    (state : GalleryPipelineStates) (reply : Option (Except StateTrackerError Unit)) :
    Except MessageError (Except StateTrackerError Unit) := do
  let _ ← sendMessage queue_alive (.AddGallery (gallery_id, state))
  awaitReply reply

/-- Embedding of `StateTrackerSender::check_gallery_doesnt_exist` (messages/mod.rs). -/
def check_gallery_doesnt_exist (queue_alive : Bool) (gallery_id : GalleryId)
    (reply : Option (Except StateTrackerError Unit)) :
    Except MessageError (Except StateTrackerError Unit) := do
  let _ ← sendMessage queue_alive (.CheckGalleryDoesntExist gallery_id)
  awaitReply reply

/-- Embedding of `StateTrackerSender::check_gallery_state` (messages/mod.rs). -/
def check_gallery_state (queue_alive : Bool) (gallery_id : GalleryId)
    (state_type : GalleryPipelineStateTypes)
    (reply : Option (Except StateTrackerError Unit)) :
    Except MessageError (Except StateTrackerError Unit) := do
  let _ ← sendMessage queue_alive (.CheckGalleryState (gallery_id, state_type))
  awaitReply reply

/-- Embedding of `StateTrackerSender::take_gallery_state` (messages/mod.rs). -/
def take_gallery_state (queue_alive : Bool) (gallery_id : GalleryId)
    (state_type : GalleryPipelineStateTypes)
    (reply : Option (Except StateTrackerError GalleryPipelineStates)) :
    Except MessageError (Except StateTrackerError GalleryPipelineStates) := do
  let _ ← sendMessage queue_alive (.TakeGalleryState (gallery_id, state_type))
  awaitReply reply

/-- Embedding of `StateTrackerSender::update_gallery_state` (messages/mod.rs). -/
def update_gallery_state (queue_alive : Bool) (gallery_id : GalleryId)
    (state : GalleryPipelineStates) (reply : Option (Except StateTrackerError Unit)) :
    Except MessageError (Except StateTrackerError Unit) := do
  let _ ← sendMessage queue_alive (.UpdateGalleryState (gallery_id, state))
  awaitReply reply

/-- Embedding of `StateTrackerSender::remove_gallery` (messages/mod.rs). -/
def remove_gallery (queue_alive : Bool) (gallery_id : GalleryId)
    (reply : Option (Except StateTrackerError Unit)) :
    Except MessageError (Except StateTrackerError Unit) := do
  let _ ← sendMessage queue_alive (.RemoveGallery gallery_id)
  awaitReply reply

end StateTrackerSender

/-- Modelled from the spec: `SchedulerError` domain errors, "gallery-already-scheduled
/ not-found" (spec 7).  The scheduler message-type source is not in the excerpt. -/
inductive SchedulerError where
  | GalleryAlreadyScheduled
  | GalleryNotScheduled
deriving DecidableEq

/-- Modelled from the spec: the Scheduler's GalleryId-to-scheduled-task map; each task
keeps the Initialization-stage payload it was registered with (spec 3, Scheduled task). -/
abbrev SchedulerTasks := List (GalleryId × GallerySchedulerState)

/-- Lookup of the scheduled task of a gallery id. -/
def SchedulerTasks.get? : SchedulerTasks → GalleryId → Option GallerySchedulerState
  | [], _ => none
  | (k, v) :: rest, g => if k == g then some v else SchedulerTasks.get? rest g

namespace SchedulerHandler

/-- Modelled from the spec: `add_gallery(state)` registers a new recurring task from an
Initialization-stage payload; fails if a task for that id already exists (spec 4.4).
The scheduler handler source (scraper_scheduler/scheduler.rs) is not in the excerpt. -/
def add_gallery (tasks : SchedulerTasks) (gallery : GallerySchedulerState) :
    Except SchedulerError SchedulerTasks :=
  match tasks.get? gallery.gallery_id with
  | some _ => .error .GalleryAlreadyScheduled
  | none => .ok ((gallery.gallery_id, gallery) :: tasks)

/-- Modelled from the spec: `update_gallery(state)` replaces an existing task's cron
expression/criteria; fails if no task exists for that id (spec 4.4). -/
def update_gallery (tasks : SchedulerTasks) (gallery : GallerySchedulerState) :
    Except SchedulerError SchedulerTasks :=
  match tasks.get? gallery.gallery_id with
  | none => .error .GalleryNotScheduled
  | some _ =>
    .ok (tasks.map (fun p => if p.1 == gallery.gallery_id then (p.1, gallery) else p))

/-- Modelled from the spec: `delete_gallery(id)` cancels the task; fails if no task
exists (spec 4.4). -/
def delete_gallery (tasks : SchedulerTasks) (g : GalleryId) :
    Except SchedulerError SchedulerTasks :=
  match tasks.get? g with
  | none => .error .GalleryNotScheduled
  | some _ => .ok (tasks.filter (fun p => !(p.1 == g)))

end SchedulerHandler

/-- Embedding of `SchedulerMessage` (messages/message_types/scraper_scheduler): the
three request kinds handled by `ScraperSchedulerModule::process_msg`; the embedded
one-shot reply channel is modelled by `channel_open` (whether the originating caller
still holds the receiving end). -/
inductive SchedulerMessage where
  | NewGallery (gallery : GallerySchedulerState) (channel_open : Bool)
  | DeleteGallery (gallery_id : GalleryId) (channel_open : Bool)
  | UpdateGallery (gallery : GallerySchedulerState) (channel_open : Bool)
deriving DecidableEq

/-- The reply channel flag of a scheduler message. -/
def SchedulerMessage.channelOpen : SchedulerMessage → Bool
  | .NewGallery _ ch => ch
  | .DeleteGallery _ ch => ch
  | .UpdateGallery _ ch => ch

/-- Modelled from the spec: `act_async` applies the handler to the message's payload
and delivers the domain result through the message's reply channel; delivery fails
with a transport error when the channel is closed (spec 4.1).  Returns the value the
caller receives (if any) and the delivery status.  The message-type source is not in
the excerpt. -/
def actAsync {α : Type} (channel_open : Bool) (result : α) :
    Option α × Except MessageError Unit :=
  if channel_open then (some result, .ok ()) else (none, .error .ReceiveError)

deriving instance DecidableEq for Except

/-- Outcome of processing one scheduler message: the updated task map, the domain
result delivered to the originating caller (if delivery succeeded), and the log lines
emitted. -/
structure ProcessOutcome where
  tasks : SchedulerTasks
  delivered : Option (Except SchedulerError Unit)
  log : List String
deriving DecidableEq

/-- Embedding of `ScraperSchedulerModule::process_msg` (scraper_scheduler/mod.rs): for
each variant, run the scheduler-handler operation on the payload, deliver its domain
result through the reply channel via `act_async`, and if delivering fails only log the
error. -/
def ScraperSchedulerModule.process_msg (tasks : SchedulerTasks) (msg : SchedulerMessage) :
    ProcessOutcome :=
  match msg with
  | .NewGallery gallery ch =>
    let opResult := SchedulerHandler.add_gallery tasks gallery
    let newTasks := match opResult with | .ok t => t | .error _ => tasks
    let (delivered, replyStatus) := actAsync ch (opResult.map fun _ => ())
    match replyStatus with
    | .ok _ => ⟨newTasks, delivered, []⟩
    | .error _ => ⟨newTasks, delivered, ["Could not respond to message"]⟩
  | .DeleteGallery gallery_id ch =>
    let opResult := SchedulerHandler.delete_gallery tasks gallery_id
    let newTasks := match opResult with | .ok t => t | .error _ => tasks
    let (delivered, replyStatus) := actAsync ch (opResult.map fun _ => ())
    match replyStatus with
    | .ok _ => ⟨newTasks, delivered, []⟩
    | .error _ => ⟨newTasks, delivered, ["Could not respond to message"]⟩
  | .UpdateGallery gallery ch =>
    let opResult := SchedulerHandler.update_gallery tasks gallery
    let newTasks := match opResult with | .ok t => t | .error _ => tasks
    let (delivered, replyStatus) := actAsync ch (opResult.map fun _ => ())
    match replyStatus with
    | .ok _ => ⟨newTasks, delivered, []⟩
    | .error _ => ⟨newTasks, delivered, ["Could not respond to message"]⟩

/-- Embedding of `ScraperSchedulerModule::run` (scraper_scheduler/mod.rs): process
the inbound messages one at a time, to completion, in arrival order. -/
def ScraperSchedulerModule.run (tasks : SchedulerTasks) :
    List SchedulerMessage → SchedulerTasks × List ProcessOutcome
  | [] => (tasks, [])
  | msg :: rest =>
    let out := ScraperSchedulerModule.process_msg tasks msg
    let (finalTasks, outs) := ScraperSchedulerModule.run out.tasks rest
    (finalTasks, out :: outs)

/-- The domain-level result of the scheduler-handler operation a message asks for
(spec 4.4: success or a domain error, as returned to the originating caller). -/
def schedulerOpResult (tasks : SchedulerTasks) : SchedulerMessage →
    Except SchedulerError Unit
  | .NewGallery gallery _ => (SchedulerHandler.add_gallery tasks gallery).map fun _ => ()
  | .DeleteGallery g _ => (SchedulerHandler.delete_gallery tasks g).map fun _ => ()
  | .UpdateGallery gallery _ => (SchedulerHandler.update_gallery tasks gallery).map fun _ => ()

/-- The same scheduler message with its reply channel forced to the given flag. -/
def SchedulerMessage.withChannel : SchedulerMessage → Bool → SchedulerMessage
  | .NewGallery gallery _, ch => .NewGallery gallery ch
  | .DeleteGallery g _, ch => .DeleteGallery g ch
  | .UpdateGallery gallery _, ch => .UpdateGallery gallery ch

/-- A concrete Initialization-stage payload used for witnesses and counterexamples. -/
def sampleScheduler : GallerySchedulerState :=
  { gallery_id := "g1"
    scraping_periodicity := "0 * * * *"
    search_criteria := "crit"
    marketplace_previous_scraped_datetimes := [("mercari", (0 : Int))]
    evaluation_criteria := "eval" }

/-- The SearchScraping-stage payload obtained from `sampleScheduler`. -/
def sampleSearch : GallerySearchScrapingState := sampleScheduler.to_next_stage

/-- A concrete ItemAnalysis-stage payload used for witnesses and counterexamples. -/
def sampleAnalysis : GalleryItemAnalysisState :=
  { gallery_id := "g1"
    items := []
    marketplace_updated_datetimes := []
    failed_marketplace_reasons := []
    evaluation_criteria := "eval" }

/-- A concrete registry holding one Present slot, used for witnesses. -/
def sampleRegistry : Registry := [("g1", .Present (.SearchScraping sampleSearch))]

/-- Setting a slot makes it the one found by lookup for that gallery id. -/
theorem Registry.get?_set_self (r : Registry) (g : GalleryId) (slot : GallerySlot) :
    (r.set g slot).get? g = some slot := by
  induction r with
  | nil => simp [Registry.set, Registry.get?]
  | cons hd tl ih =>
    by_cases h : (hd.1 == g) = true
    · simp [Registry.set, h, Registry.get?]
    · simp only [Registry.set]
      rw [show (hd.1 == g) = false by simpa using h]
      simp only [Bool.false_eq_true, if_false]
      simp [Registry.get?, h, ih]

/-- Erasing a gallery id removes every slot under that id. -/
theorem Registry.get?_erase_self (r : Registry) (g : GalleryId) :
    (r.erase g).get? g = none := by
  induction r with
  | nil => simp [Registry.erase, Registry.get?]
  | cons hd tl ih =>
    by_cases h : (hd.1 == g) = true
    · simpa [Registry.erase, List.filter, h] using ih
    · have hf : (hd.1 == g) = false := by simpa using h
      simp [Registry.erase, List.filter, hf, Registry.get?] at ih ⊢
      exact ih

/-- Processing a list of messages produces one outcome per message. -/
theorem run_outcomes_length (msgs : List SchedulerMessage) :
    ∀ tasks : SchedulerTasks,
      ((ScraperSchedulerModule.run tasks msgs).2).length = msgs.length := by
  induction msgs with
  | nil => intro tasks; rfl
  | cons msg rest ih =>
    intro tasks
    simp [ScraperSchedulerModule.run, ih]

/-- C1: for a gallery with a Present slot whose payload matches the expected tag,
Take succeeds and leaves the slot Taken; a second Take without an intervening Update
fails with `GalleryStateTaken`; an Update with no prior Take fails with
`GalleryStateNotTaken`; Update on the Taken slot restores Present; and neither Add
nor Remove moves a slot between Present and Taken (Add fails on any existing slot,
Remove deletes the slot), so Take and Update are the only transitions between the two. -/
theorem take_update_lease_protocol (r : Registry) (G : GalleryId)
    (s : GalleryPipelineStates) (tag : GalleryPipelineStateTypes)
    (hP : r.get? G = some (.Present s)) (htag : s.matches tag = true) :
    StateTracker.take_gallery_state r G tag = .ok (s, r.set G .Taken)
    ∧ (r.set G .Taken).get? G = some .Taken
    ∧ (∀ tag2, StateTracker.take_gallery_state (r.set G .Taken) G tag2 =
        .error .GalleryStateTaken)
    ∧ (∀ s2, StateTracker.update_gallery_state r G s2 = .error .GalleryStateNotTaken)
    ∧ (∀ s2, StateTracker.update_gallery_state (r.set G .Taken) G s2 =
        .ok ((r.set G .Taken).set G (.Present s2)))
    ∧ (∀ s2, StateTracker.add_gallery r G s2 = .error .GalleryAlreadyExists)
    ∧ (∀ s2, StateTracker.add_gallery (r.set G .Taken) G s2 =
        .error .GalleryAlreadyExists)
    ∧ StateTracker.remove_gallery r G = .ok (r.erase G)
    ∧ (r.erase G).get? G = none := by
  have hT : (r.set G .Taken).get? G = some .Taken := Registry.get?_set_self r G .Taken
  refine ⟨?_, hT, ?_, ?_, ?_, ?_, ?_, ?_, Registry.get?_erase_self r G⟩
  · simp [StateTracker.take_gallery_state, hP, htag]
  · intro tag2; simp [StateTracker.take_gallery_state, hT]
  · intro s2; simp [StateTracker.update_gallery_state, hP]
  · intro s2; simp [StateTracker.update_gallery_state, hT]
  · intro s2; simp [StateTracker.add_gallery, hP]
  · intro s2; simp [StateTracker.add_gallery, hT]
  · simp [StateTracker.remove_gallery, hP]

/-- Witness for C1 at a concrete registry with gallery g1 Present in the
SearchScraping stage. -/
theorem take_update_lease_protocol_witness :
    StateTracker.take_gallery_state sampleRegistry "g1" .SearchScraping =
      .ok (.SearchScraping sampleSearch, sampleRegistry.set "g1" .Taken)
    ∧ (∀ s2, StateTracker.update_gallery_state sampleRegistry "g1" s2 =
        .error .GalleryStateNotTaken) :=
  let h := take_update_lease_protocol sampleRegistry "g1"
    (.SearchScraping sampleSearch) .SearchScraping (by decide) (by decide)
  ⟨h.1, h.2.2.2.1⟩

/-- C2: the stage-1 transition from the Initialization payload to the SearchScraping
payload preserves gallery_id, search_criteria, marketplace_previous_scraped_datetimes
and evaluation_criteria exactly. -/
theorem scheduler_transition_preserves_fields (s : GallerySchedulerState) :
    (s.to_next_stage).gallery_id = s.gallery_id
    ∧ (s.to_next_stage).search_criteria = s.search_criteria
    ∧ (s.to_next_stage).marketplace_previous_scraped_datetimes =
        s.marketplace_previous_scraped_datetimes
    ∧ (s.to_next_stage).evaluation_criteria = s.evaluation_criteria :=
  ⟨rfl, rfl, rfl, rfl⟩

/-- C3: the ItemScraping-to-ItemAnalysis and ItemAnalysis-to-ItemEmbedding transitions
preserve gallery_id, marketplace_updated_datetimes and failed_marketplace_reasons
unchanged, for every input payload and supplied items map. -/
theorem item_transitions_preserve_failure_history
    (st : GalleryItemScrapingState) (items : HMap Marketplace (List MarketplaceItemData))
    (st2 : GalleryItemAnalysisState) (items2 : HMap Marketplace MarketplaceAnalyzedItems) :
    ((st.to_next_stage items).gallery_id = st.gallery_id
     ∧ (st.to_next_stage items).marketplace_updated_datetimes =
         st.marketplace_updated_datetimes
     ∧ (st.to_next_stage items).failed_marketplace_reasons =
         st.failed_marketplace_reasons)
    ∧ ((st2.to_next_stage items2).gallery_id = st2.gallery_id
     ∧ (st2.to_next_stage items2).marketplace_updated_datetimes =
         st2.marketplace_updated_datetimes
     ∧ (st2.to_next_stage items2).failed_marketplace_reasons =
         st2.failed_marketplace_reasons) :=
  ⟨⟨rfl, rfl, rfl⟩, ⟨rfl, rfl, rfl⟩⟩

/-- Counterexample to C4: the Initialization payload carries neither a
`failed_marketplace_reasons` map nor a `marketplace_updated_datetimes` map, and the
SearchScraping payload carries no `failed_marketplace_reasons` map either. -/
theorem early_stages_lack_failure_map_counterexample :
    failedMarketplaceReasons? (.Initialization sampleScheduler) = none
    ∧ marketplaceUpdatedDatetimes? (.Initialization sampleScheduler) = none
    ∧ failedMarketplaceReasons? (.SearchScraping sampleSearch) = none :=
  ⟨rfl, rfl, rfl⟩

/-- C4 as amended: only the ItemScraping, ItemAnalysis, ItemEmbedding and Final
payloads carry `marketplace_updated_datetimes` and `failed_marketplace_reasons`;
the Initialization and SearchScraping payloads instead carry only a per-marketplace
timestamp map named `marketplace_previous_scraped_datetimes` and no per-marketplace
failure-text map. -/
theorem stage_history_field_coverage (p : GalleryPipelineStates) :
    ((failedMarketplaceReasons? p).isSome = true ↔ 2 ≤ stageIndex p.state_type)
    ∧ ((marketplaceUpdatedDatetimes? p).isSome = true ↔ 2 ≤ stageIndex p.state_type)
    ∧ ((marketplacePreviousScrapedDatetimes? p).isSome = true ↔
        stageIndex p.state_type < 2) := by
  cases p <;>
    refine ⟨?_, ?_, ?_⟩ <;>
    simp [failedMarketplaceReasons?, marketplaceUpdatedDatetimes?,
      marketplacePreviousScrapedDatetimes?, GalleryPipelineStates.state_type, stageIndex]

/-- Counterexample to C5: the ItemAnalysis-to-ItemEmbedder transition does not yield
a payload carrying the input's evaluation_criteria; the resulting
GalleryItemEmbedderState has no evaluation_criteria field at all. -/
theorem embedder_transition_drops_evaluation_criteria :
    evaluationCriteria? (.ItemAnalysis sampleAnalysis) = some "eval"
    ∧ evaluationCriteria? (.ItemEmbedding (sampleAnalysis.to_next_stage [])) = none :=
  ⟨rfl, rfl⟩

/-- C5 as amended: evaluation_criteria is preserved by the Initialization-to-
SearchScraping and ItemScraping-to-ItemAnalysis transitions, but the ItemAnalysis-to-
ItemEmbedder transition drops it: its output carries no evaluation_criteria. -/
theorem evaluation_criteria_threading (s : GallerySchedulerState)
    (st : GalleryItemScrapingState) (items : HMap Marketplace (List MarketplaceItemData))
    (st2 : GalleryItemAnalysisState) (items2 : HMap Marketplace MarketplaceAnalyzedItems) :
    evaluationCriteria? (.SearchScraping s.to_next_stage) =
      evaluationCriteria? (.Initialization s)
    ∧ evaluationCriteria? (.ItemAnalysis (st.to_next_stage items)) =
      evaluationCriteria? (.ItemScraping st)
    ∧ evaluationCriteria? (.ItemEmbedding (st2.to_next_stage items2)) = none :=
  ⟨rfl, rfl, rfl⟩

/-- C6: for every stage payload and tag, `matches` returns true exactly when
`state_type` equals the tag, and the tag-side `matches` delegates to the payload-side
one, so the two queries agree on all six variants. -/
theorem matches_agrees_with_state_type (s : GalleryPipelineStates)
    (t : GalleryPipelineStateTypes) :
    (s.matches t = true ↔ s.state_type = t)
    ∧ GalleryPipelineStateTypes.matches t s = s.matches t := by
  constructor
  · cases s <;> cases t <;>
      simp [GalleryPipelineStates.matches, GalleryPipelineStates.state_type]
  · rfl

/-- Counterexample to C7: a wrapper method's call-site value is a Result nested
inside a Result: here `take_gallery_state` returns the domain error
`GalleryStateTaken` wrapped inside a successful outer transport Result, rather than
surfacing it as the error of one flattened Result. -/
theorem wrapper_returns_nested_result :
    StateTrackerSender.take_gallery_state true "g1" .SearchScraping
      (some (.error .GalleryStateTaken)) =
      .ok (.error .GalleryStateTaken)
    ∧ (StateTrackerSender.take_gallery_state true "g1" .SearchScraping
        (some (.error .GalleryStateTaken))).isOk = true :=
  ⟨rfl, rfl⟩

/-- C7 as amended: every StateTrackerSender method keeps the two error layers nested
(domain Result inside transport Result): with the receiver alive and a reply `rep`
the method returns `ok rep` (even when `rep` is a domain error); a dead receiver
queue yields the transport SendError; a dropped reply channel yields the transport
ReceiveError. -/
theorem wrapper_two_layer_contract :
    (∀ g st rep, StateTrackerSender.add_gallery true g st (some rep) = .ok rep)
    ∧ (∀ g st rep, StateTrackerSender.add_gallery false g st rep = .error .SendError)
    ∧ (∀ g st, StateTrackerSender.add_gallery true g st none = .error .ReceiveError)
    ∧ (∀ g rep, StateTrackerSender.check_gallery_doesnt_exist true g (some rep) = .ok rep)
    ∧ (∀ g rep, StateTrackerSender.check_gallery_doesnt_exist false g rep =
        .error .SendError)
    ∧ (∀ g, StateTrackerSender.check_gallery_doesnt_exist true g none =
        .error .ReceiveError)
    ∧ (∀ g t rep, StateTrackerSender.check_gallery_state true g t (some rep) = .ok rep)
    ∧ (∀ g t rep, StateTrackerSender.check_gallery_state false g t rep =
        .error .SendError)
    ∧ (∀ g t, StateTrackerSender.check_gallery_state true g t none =
        .error .ReceiveError)
    ∧ (∀ g t rep, StateTrackerSender.take_gallery_state true g t (some rep) = .ok rep)
    ∧ (∀ g t rep, StateTrackerSender.take_gallery_state false g t rep =
        .error .SendError)
    ∧ (∀ g t, StateTrackerSender.take_gallery_state true g t none =
        .error .ReceiveError)
    ∧ (∀ g st rep, StateTrackerSender.update_gallery_state true g st (some rep) = .ok rep)
    ∧ (∀ g st rep, StateTrackerSender.update_gallery_state false g st rep =
        .error .SendError)
    ∧ (∀ g st, StateTrackerSender.update_gallery_state true g st none =
        .error .ReceiveError)
    ∧ (∀ g rep, StateTrackerSender.remove_gallery true g (some rep) = .ok rep)
    ∧ (∀ g rep, StateTrackerSender.remove_gallery false g rep = .error .SendError)
    ∧ (∀ g, StateTrackerSender.remove_gallery true g none = .error .ReceiveError) :=
  ⟨fun _ _ _ => rfl, fun _ _ _ => rfl, fun _ _ => rfl,
   fun _ _ => rfl, fun _ _ => rfl, fun _ => rfl,
   fun _ _ _ => rfl, fun _ _ _ => rfl, fun _ _ => rfl,
   fun _ _ _ => rfl, fun _ _ _ => rfl, fun _ _ => rfl,
   fun _ _ _ => rfl, fun _ _ _ => rfl, fun _ _ => rfl,
   fun _ _ => rfl, fun _ _ => rfl, fun _ => rfl⟩

/-- C8: for every scheduler message, when the reply channel is open the domain result
of the underlying add/delete/update operation is delivered to the originating caller
and nothing is logged; when the channel is closed the delivery failure is only
logged, the task map is still updated exactly as it would have been, and processing
continues with the next message (every message in the inbound list yields an outcome). -/
theorem scheduler_reply_delivery (tasks : SchedulerTasks) (msg : SchedulerMessage) :
    (msg.channelOpen = true →
      (ScraperSchedulerModule.process_msg tasks msg).delivered =
        some (schedulerOpResult tasks msg)
      ∧ (ScraperSchedulerModule.process_msg tasks msg).log = [])
    ∧ (msg.channelOpen = false →
      (ScraperSchedulerModule.process_msg tasks msg).delivered = none
      ∧ (ScraperSchedulerModule.process_msg tasks msg).log =
          ["Could not respond to message"]
      ∧ (ScraperSchedulerModule.process_msg tasks msg).tasks =
          (ScraperSchedulerModule.process_msg tasks (msg.withChannel true)).tasks)
    ∧ (∀ rest, ((ScraperSchedulerModule.run tasks (msg :: rest)).2).length =
        rest.length + 1) := by
  refine ⟨?_, ?_, ?_⟩
  · intro hopen
    cases msg <;>
      simp_all [ScraperSchedulerModule.process_msg, SchedulerMessage.channelOpen,
        actAsync, schedulerOpResult]
  · intro hclosed
    cases msg <;>
      simp_all [ScraperSchedulerModule.process_msg, SchedulerMessage.channelOpen,
        SchedulerMessage.withChannel, actAsync]
  · intro rest
    simp [ScraperSchedulerModule.run, run_outcomes_length]

/-- Witness for C8 at a concrete NewGallery message with an open reply channel and a
concrete DeleteGallery message with a closed one. -/
theorem scheduler_reply_delivery_witness :
    (ScraperSchedulerModule.process_msg [] (.NewGallery sampleScheduler true)).delivered =
      some (schedulerOpResult [] (.NewGallery sampleScheduler true))
    ∧ (ScraperSchedulerModule.process_msg [] (.DeleteGallery "g1" false)).delivered =
      none :=
  ⟨((scheduler_reply_delivery [] (.NewGallery sampleScheduler true)).1 rfl).1,
   ((scheduler_reply_delivery [] (.DeleteGallery "g1" false)).2.1 rfl).1⟩

/-- C9: the three transition functions provided by the state machine each advance a
payload by exactly one position in the linear stage order Initialization,
SearchScraping, ItemScraping, ItemAnalysis, ItemEmbedding, Final, and a cron fire
dispatches a SearchScraping-stage payload, returning a gallery whose pipeline run has
finished to the SearchScraping stage. -/
theorem pipeline_stage_order :
    (∀ s : GallerySchedulerState,
      stageIndex (GalleryPipelineStates.state_type (.SearchScraping s.to_next_stage)) =
        stageIndex (GalleryPipelineStates.state_type (.Initialization s)) + 1)
    ∧ (∀ (st : GalleryItemScrapingState)
        (items : HMap Marketplace (List MarketplaceItemData)),
      stageIndex
          (GalleryPipelineStates.state_type (.ItemAnalysis (st.to_next_stage items))) =
        stageIndex (GalleryPipelineStates.state_type (.ItemScraping st)) + 1)
    ∧ (∀ (st : GalleryItemAnalysisState)
        (items : HMap Marketplace MarketplaceAnalyzedItems),
      stageIndex
          (GalleryPipelineStates.state_type (.ItemEmbedding (st.to_next_stage items))) =
        stageIndex (GalleryPipelineStates.state_type (.ItemAnalysis st)) + 1)
    ∧ (∀ sched : GallerySchedulerState,
      (cron_fire sched).state_type = .SearchScraping) :=
  ⟨fun _ => rfl, fun _ _ => rfl, fun _ _ => rfl, fun _ => rfl⟩

/-- C10: the Initialization-to-SearchScraping transition carries over every field of
the scheduler payload except `scraping_periodicity`: the result has no cron field,
and no stage payload other than Initialization carries one, so the cron string is not
recoverable from any later stage payload. -/
theorem scheduler_transition_drops_cron (s : GallerySchedulerState) :
    (s.to_next_stage).gallery_id = s.gallery_id
    ∧ (s.to_next_stage).search_criteria = s.search_criteria
    ∧ (s.to_next_stage).marketplace_previous_scraped_datetimes =
        s.marketplace_previous_scraped_datetimes
    ∧ (s.to_next_stage).evaluation_criteria = s.evaluation_criteria
    ∧ scrapingPeriodicity? (.SearchScraping s.to_next_stage) = none
    ∧ (∀ p : GalleryPipelineStates, p.state_type ≠ .Initialization →
        scrapingPeriodicity? p = none) :=
  ⟨rfl, rfl, rfl, rfl, rfl, by
    intro p hp
    cases p with
    | Initialization st => exact absurd rfl hp
    | SearchScraping st => rfl
    | ItemScraping st => rfl
    | ItemAnalysis st => rfl
    | ItemEmbedding st => rfl
    | Final st => rfl⟩

/-- Witness for C10 at the concrete sample payload: the SearchScraping payload
produced by the transition has no cron field. -/
theorem scheduler_transition_drops_cron_witness :
    scrapingPeriodicity? (.SearchScraping sampleScheduler.to_next_stage) = none :=
  (scheduler_transition_drops_cron sampleScheduler).2.2.2.2.2
    (.SearchScraping sampleScheduler.to_next_stage) (by decide)

end ItemTracker
